import Mathlib

/-!
Verification of the student management system's core (`student_management_system.py`):
entity model (`Student`, `Course`), the in-memory `DataStore` with its operations
`add_student`, `add_course`, `get_student`, `get_course`, `enroll`, `add_grade`,
and the JSON codec `to_json` / `from_json`.

Python dictionaries are modelled as association lists `List (String × α)`:
insertion order is preserved, lookup finds the first matching key, assignment to
an existing key updates the value in place, assignment to a new key appends.
Mutation of an entity object held in a dictionary is modelled as updating the
value stored under its key (reachable stores never alias one record under two
keys, since insertion keys the record by its own identity field).
-/

/-- Lookup in a Python-dict model: first pair whose key matches. -/
def alookup {α : Type} : List (String × α) → String → Option α
  | [], _ => none
  | p :: rest, k => if p.1 = k then some p.2 else alookup rest k

/-- Replace the value stored under key `k` (models in-place mutation of the
object a Python dict holds under `k`; keys and order are unchanged). -/
def aupdate {α : Type} : List (String × α) → String → α → List (String × α)
  | [], _, _ => []
  | p :: rest, k, v => if p.1 = k then (k, v) :: aupdate rest k v else p :: aupdate rest k v

/-- Python `d[k] = v`: update in place if the key exists, else append. -/
def dictUpsert {α : Type} (l : List (String × α)) (k : String) (v : α) : List (String × α) :=
  if (alookup l k).isSome then aupdate l k v else l ++ [(k, v)]

/-- `Student` dataclass: personal fields inherited from `Person`, plus
student id, a grades dict (course code → grade) and a course-code list. -/
structure Student where
  name : String
  age : Int
  address : String
  student_id : String
  grades : List (String × String)
  courses : List String
deriving DecidableEq, Repr

/-- `Course` dataclass: name, code, instructor and the enrolled student-id list. -/
structure Course where
  course_name : String
  course_code : String
  instructor : String
  students : List String
deriving DecidableEq, Repr

/-- `Student.add_grade`: `self.grades[course_code] = grade` (dict upsert). -/
def Student.add_grade (s : Student) (course_code grade : String) : Student :=
  { s with grades := dictUpsert s.grades course_code grade }

/-- `Student.enroll_course`: append the course code unless already present. -/
def Student.enroll_course (s : Student) (course_code : String) : Student :=
  if course_code ∈ s.courses then s else { s with courses := s.courses ++ [course_code] }

/-- `Course.add_student`: append the student id unless already present. -/
def Course.add_student (c : Course) (student_id : String) : Course :=
  if student_id ∈ c.students then c else { c with students := c.students ++ [student_id] }

/-- The `DataStore`: `students` keyed by student id, `courses` keyed by course code. -/
structure DataStore where
  students : List (String × Student)
  courses : List (String × Course)
deriving DecidableEq, Repr

/-- `DataStore.__init__`: both collections empty. -/
def DataStore.empty : DataStore := { students := [], courses := [] }

/-- `DataStore.add_student`: returns `False` without mutation when the id is
already a key, else inserts the record under its own `student_id`. -/
def DataStore.add_student (ds : DataStore) (student : Student) : Bool × DataStore :=
  if (alookup ds.students student.student_id).isSome then
    (false, ds)
  else
    (true, { ds with students := ds.students ++ [(student.student_id, student)] })

/-- `DataStore.get_student`: plain dict lookup. -/
def DataStore.get_student (ds : DataStore) (student_id : String) : Option Student :=
  alookup ds.students student_id

/-- `DataStore.add_course`: symmetric to `add_student`, keyed by course code. -/
def DataStore.add_course (ds : DataStore) (course : Course) : Bool × DataStore :=
  if (alookup ds.courses course.course_code).isSome then
    (false, ds)
  else
    (true, { ds with courses := ds.courses ++ [(course.course_code, course)] })

/-- `DataStore.get_course`: plain dict lookup. -/
def DataStore.get_course (ds : DataStore) (course_code : String) : Option Course :=
  alookup ds.courses course_code

def studentNotFoundMsg : String := "Error: Student ID not found."

def courseNotFoundMsg : String := "Error: Course code not found."

def notEnrolledMsg : String :=
  "Error: Student must be enrolled in the course before assigning a grade."

/-- The f-string `enroll` returns on success. -/
def enrollSuccessMsg (student : Student) (course : Course) : String :=
  "Student " ++ student.name ++ " (ID: " ++ student.student_id ++ ") enrolled in "
    ++ course.course_name ++ " (Code: " ++ course.course_code ++ ")."

/-- The f-string `add_grade` returns on success. -/
def gradeSuccessMsg (grade : String) (student : Student) (course : Course) : String :=
  "Grade " ++ grade ++ " added for " ++ student.name ++ " in " ++ course.course_name ++ "."

/-- `DataStore.enroll`: student looked up first, then the course; on success both
back-references are added and the success message is built from the (mutated)
records. The returned store reflects the in-place mutations. -/
def DataStore.enroll (ds : DataStore) (student_id course_code : String) : String × DataStore :=
  match alookup ds.students student_id with
  | none => (studentNotFoundMsg, ds)
  | some student =>
    match alookup ds.courses course_code with
    | none => (courseNotFoundMsg, ds)
    | some course =>
      let student2 := student.enroll_course course_code
      let course2 := course.add_student student_id
      (enrollSuccessMsg student2 course2,
       { students := aupdate ds.students student_id student2,
         courses := aupdate ds.courses course_code course2 })

/-- `DataStore.add_grade`: student looked up first, then the course, then the
enrollment guard `course_code not in student.courses`; on success the grade is
upserted on the student record. -/
def DataStore.add_grade (ds : DataStore) (student_id course_code grade : String) :
    String × DataStore :=
  match alookup ds.students student_id with
  | none => (studentNotFoundMsg, ds)
  | some student =>
    match alookup ds.courses course_code with
    | none => (courseNotFoundMsg, ds)
    | some course =>
      if course_code ∉ student.courses then
        (notEnrolledMsg, ds)
      else
        let student2 := student.add_grade course_code grade
        (gradeSuccessMsg grade student2 course,
         { ds with students := aupdate ds.students student_id student2 })

/-!
JSON codec.  A JSON value is modelled structurally; a JSON object is an
association list.  Python raises on `s["k"]` when `"k"` is missing
(`KeyError "k"`) and on treating a non-dict as a dict or an unexpected shape
(`TypeError`/`AttributeError`).  Python stores whatever value the document
holds without type checks; since the Lean records are typed, an ill-typed
present value surfaces as `PyErr.typeError` after all key lookups of the
entry have succeeded — the claims only concern well-typed documents and
documents with missing keys, where the two behaviours agree.
-/

inductive JValue where
  | str (s : String)
  | num (n : Int)
  | obj (fields : List (String × JValue))
  | arr (elems : List JValue)

abbrev JObj := List (String × JValue)

inductive PyErr where
  | keyError (k : String)
  | typeError
deriving DecidableEq, Repr

/-- Sequential effectful map: the first error aborts, like a Python loop. -/
def mapExcept {α β : Type} (f : α → Except PyErr β) : List α → Except PyErr (List β)
  | [] => .ok []
  | a :: rest =>
    match f a with
    | .error e => .error e
    | .ok b =>
      match mapExcept f rest with
      | .error e => .error e
      | .ok bs => .ok (b :: bs)

def decodeStr : JValue → Except PyErr String
  | .str s => .ok s
  | _ => .error .typeError

def decodeStrList : JValue → Except PyErr (List String)
  | .arr l => mapExcept decodeStr l
  | _ => .error .typeError

def decodeStrMap : JValue → Except PyErr (List (String × String))
  | .obj l => mapExcept (fun p => (decodeStr p.2).map (fun v => (p.1, v))) l
  | _ => .error .typeError

/-- Per-student fragment of `to_json`: all attributes, by value. -/
def studentToObj (s : Student) : JObj :=
  [("name", .str s.name),
   ("age", .num s.age),
   ("address", .str s.address),
   ("student_id", .str s.student_id),
   ("grades", .obj (s.grades.map (fun p => (p.1, JValue.str p.2)))),
   ("courses", .arr (s.courses.map JValue.str))]

/-- Per-course fragment of `to_json`. -/
def courseToObj (c : Course) : JObj :=
  [("course_name", .str c.course_name),
   ("course_code", .str c.course_code),
   ("instructor", .str c.instructor),
   ("students", .arr (c.students.map JValue.str))]

/-- `DataStore.to_json`: two top-level mappings keyed by identity. -/
def toJson (ds : DataStore) : JObj :=
  [("students", .obj (ds.students.map (fun p => (p.1, JValue.obj (studentToObj p.2))))),
   ("courses", .obj (ds.courses.map (fun p => (p.1, JValue.obj (courseToObj p.2)))))]

/-- Rebuild one `Student` from its attribute object.  The four required
subscripts `s["name"]`, `s["age"]`, `s["address"]`, `s["student_id"]` are
evaluated in source order (a missing one raises `KeyError` naming that field);
`grades` and `courses` use `.get` with empty defaults. -/
def studentFromObj (o : JObj) : Except PyErr Student :=
  match alookup o "name", alookup o "age", alookup o "address", alookup o "student_id" with
  | none, _, _, _ => .error (.keyError "name")
  | some _, none, _, _ => .error (.keyError "age")
  | some _, some _, none, _ => .error (.keyError "address")
  | some _, some _, some _, none => .error (.keyError "student_id")
  | some vn, some va, some vad, some vsid =>
    let vg := (alookup o "grades").getD (JValue.obj [])
    let vc := (alookup o "courses").getD (JValue.arr [])
    match vn, va, vad, vsid with
    | .str name, .num age, .str address, .str student_id =>
      match decodeStrMap vg, decodeStrList vc with
      | .ok grades, .ok courses =>
        .ok { name := name, age := age, address := address, student_id := student_id,
              grades := grades, courses := courses }
      | .error e, _ => .error e
      | _, .error e => .error e
    | _, _, _, _ => .error .typeError

/-- Rebuild one `Course`: `c["course_name"]`, `c["course_code"]`,
`c["instructor"]` in source order, `students` defaulting to empty. -/
def courseFromObj (o : JObj) : Except PyErr Course :=
  match alookup o "course_name", alookup o "course_code", alookup o "instructor" with
  | none, _, _ => .error (.keyError "course_name")
  | some _, none, _ => .error (.keyError "course_code")
  | some _, some _, none => .error (.keyError "instructor")
  | some vn, some vc, some vi =>
    let vs := (alookup o "students").getD (JValue.arr [])
    match vn, vc, vi with
    | .str course_name, .str course_code, .str instructor =>
      match decodeStrList vs with
      | .ok students =>
        .ok { course_name := course_name, course_code := course_code,
              instructor := instructor, students := students }
      | .error e => .error e
    | _, _, _ => .error .typeError

/-- Rebuild one keyed collection: each entry's value must be an object. -/
def entriesFromObj {β : Type} (f : JObj → Except PyErr β) (entries : JObj) :
    Except PyErr (List (String × β)) :=
  mapExcept (fun p =>
    match p.2 with
    | .obj o => (f o).map (fun b => (p.1, b))
    | _ => .error .typeError) entries

/-- `DataStore.from_json`: `data.get("students", {})` rebuilt first, then
`data.get("courses", {})`; entries are processed in document order and the
first failure aborts. -/
def fromJson (data : JObj) : Except PyErr DataStore :=
  match (alookup data "students").getD (JValue.obj []) with
  | .obj sentries =>
    match entriesFromObj studentFromObj sentries with
    | .error e => .error e
    | .ok students =>
      match (alookup data "courses").getD (JValue.obj []) with
      | .obj centries =>
        match entriesFromObj courseFromObj centries with
        | .error e => .error e
        | .ok courses => .ok { students := students, courses := courses }
      | _ => .error .typeError
  | _ => .error .typeError

/-!
Reachability.  The public mutating operations, invoked the way the program's
callers invoke them: `add_new_student_cli` and `add_new_course_cli` construct
entity records with the dataclass defaults (`grades = {}`, `courses = []`,
`students = []`), so `addStudent`/`addCourse` carry the scalar fields only.
-/

/-- A freshly constructed `Student` (dataclass defaults for the collections). -/
def Student.new (name : String) (age : Int) (address student_id : String) : Student :=
  { name := name, age := age, address := address, student_id := student_id,
    grades := [], courses := [] }

/-- A freshly constructed `Course` (dataclass default for `students`). -/
def Course.new (course_name course_code instructor : String) : Course :=
  { course_name := course_name, course_code := course_code, instructor := instructor,
    students := [] }

/-- One public mutating operation, with the arguments its callers supply. -/
inductive Op where
  | addStudent (name : String) (age : Int) (address student_id : String)
  | addCourse (course_name course_code instructor : String)
  | enroll (student_id course_code : String)
  | addGrade (student_id course_code grade : String)

/-- Apply one operation, keeping the resulting store. -/
def applyOp (ds : DataStore) : Op → DataStore
  | .addStudent n a ad sid => (ds.add_student (Student.new n a ad sid)).2
  | .addCourse cn cc i => (ds.add_course (Course.new cn cc i)).2
  | .enroll sid cc => (ds.enroll sid cc).2
  | .addGrade sid cc g => (ds.add_grade sid cc g).2

/-- Stores reachable from the empty store through the public operations. -/
inductive Reachable : DataStore → Prop where
  | empty : Reachable DataStore.empty
  | step (op : Op) {ds : DataStore} : Reachable ds → Reachable (applyOp ds op)

/-! Association-list lemmas. -/

theorem alookup_aupdate_self {α : Type} (l : List (String × α)) (k : String) (v w : α)
    (h : alookup l k = some w) : alookup (aupdate l k v) k = some v := by
  induction l with
  | nil => simp [alookup] at h
  | cons p rest ih =>
    by_cases hp : p.1 = k
    · simp [alookup, aupdate, hp]
    · simp only [alookup, aupdate, hp, if_false, if_neg hp] at h ⊢
      exact ih h

theorem alookup_aupdate_ne {α : Type} (l : List (String × α)) (k k' : String) (v : α)
    (h : k' ≠ k) : alookup (aupdate l k v) k' = alookup l k' := by
  induction l with
  | nil => rfl
  | cons p rest ih =>
    by_cases hp : p.1 = k
    · have hk' : ¬ k = k' := fun hh => h hh.symm
      simp [alookup, aupdate, hp, hk', ih]
    · simp [alookup, aupdate, hp, ih]

theorem alookup_aupdate_isSome {α : Type} (l : List (String × α)) (k k' : String) (v : α) :
    (alookup (aupdate l k v) k').isSome = (alookup l k').isSome := by
  by_cases hk : k' = k
  · subst hk
    cases h : alookup l k' with
    | none =>
      induction l with
      | nil => rfl
      | cons p rest ih =>
        by_cases hp : p.1 = k'
        · simp [alookup, hp] at h
        · simp only [alookup, aupdate, hp, if_neg hp] at h ⊢
          exact ih h
    | some w => simp [alookup_aupdate_self l k' v w h, h]
  · rw [alookup_aupdate_ne l k k' v hk]

theorem alookup_aupdate_inv {α : Type} (l : List (String × α)) (k k' : String) (v w : α)
    (h : alookup (aupdate l k v) k' = some w) :
    (k' = k ∧ w = v) ∨ (k' ≠ k ∧ alookup l k' = some w) := by
  by_cases hk : k' = k
  · subst hk
    left
    refine ⟨rfl, ?_⟩
    induction l with
    | nil => simp [alookup, aupdate] at h
    | cons p rest ih =>
      by_cases hp : p.1 = k'
      · simp [alookup, aupdate, hp] at h
        exact h.symm
      · simp only [alookup, aupdate, hp, if_neg hp] at h
        exact ih h
  · right
    exact ⟨hk, by rw [alookup_aupdate_ne l k k' v hk] at h; exact h⟩

theorem alookup_append_some {α : Type} (l m : List (String × α)) (k : String) (w : α)
    (h : alookup l k = some w) : alookup (l ++ m) k = some w := by
  induction l with
  | nil => simp [alookup] at h
  | cons p rest ih =>
    by_cases hp : p.1 = k
    · simp only [alookup, hp, if_pos rfl] at h
      simpa [alookup, hp] using h
    · simp only [alookup, hp, if_neg hp] at h
      simp only [List.cons_append, alookup, hp, if_neg hp]
      exact ih h

theorem alookup_append_none {α : Type} (l m : List (String × α)) (k : String)
    (h : alookup l k = none) : alookup (l ++ m) k = alookup m k := by
  induction l with
  | nil => rfl
  | cons p rest ih =>
    by_cases hp : p.1 = k
    · simp [alookup, hp] at h
    · simp only [alookup, hp, if_neg hp] at h
      simp only [List.cons_append, alookup, hp, if_neg hp]
      exact ih h

theorem alookup_single {α : Type} (k k' : String) (v : α) :
    alookup [(k, v)] k' = if k = k' then some v else none := rfl

theorem alookup_append_single_inv {α : Type} (l : List (String × α)) (k k' : String) (v w : α)
    (h : alookup (l ++ [(k, v)]) k' = some w) :
    alookup l k' = some w ∨ (alookup l k' = none ∧ k' = k ∧ w = v) := by
  cases hl : alookup l k' with
  | some u =>
    left
    exact (alookup_append_some l [(k, v)] k' u hl).symm.trans h
  | none =>
    right
    rw [alookup_append_none l [(k, v)] k' hl, alookup_single] at h
    by_cases hk : k = k'
    · simp [hk] at h
      exact ⟨rfl, hk.symm, h.symm⟩
    · simp [hk] at h

theorem alookup_dictUpsert_self {α : Type} (l : List (String × α)) (k : String) (v : α) :
    alookup (dictUpsert l k v) k = some v := by
  unfold dictUpsert
  cases h : alookup l k with
  | none => simp [h, alookup_append_none l [(k, v)] k h, alookup_single]
  | some w => simp [h, alookup_aupdate_self l k v w h]

theorem alookup_dictUpsert_isSome {α : Type} (l : List (String × α)) (k k' : String) (v : α)
    (h : (alookup (dictUpsert l k v) k').isSome) :
    (alookup l k').isSome ∨ k' = k := by
  unfold dictUpsert at h
  cases hl : alookup l k with
  | some w =>
    simp only [hl, Option.isSome_some, if_pos] at h
    rw [alookup_aupdate_isSome] at h
    exact Or.inl h
  | none =>
    simp only [hl, Option.isSome_none, Bool.false_eq_true, if_false] at h
    cases hl' : alookup l k' with
    | some u => exact Or.inl (by simp [hl'])
    | none =>
      rw [alookup_append_none l [(k, v)] k' hl', alookup_single] at h
      by_cases hk : k = k'
      · exact Or.inr hk.symm
      · simp [hk] at h

/-! Entity-operation lemmas. -/

theorem enroll_course_mem (s : Student) (cc : String) : cc ∈ (s.enroll_course cc).courses := by
  unfold Student.enroll_course
  by_cases h : cc ∈ s.courses <;> simp [h]

theorem mem_enroll_course_iff (s : Student) (cc x : String) :
    x ∈ (s.enroll_course cc).courses ↔ x ∈ s.courses ∨ x = cc := by
  unfold Student.enroll_course
  by_cases h : cc ∈ s.courses
  · simp only [h, if_pos]
    constructor
    · exact Or.inl
    · rintro (hx | rfl)
      · exact hx
      · exact h
  · simp [h]

theorem enroll_course_idem (s : Student) (cc : String) :
    (s.enroll_course cc).enroll_course cc = s.enroll_course cc := by
  have h := enroll_course_mem s cc
  conv_lhs => rw [Student.enroll_course]
  rw [if_pos h]

theorem enroll_course_name (s : Student) (cc : String) : (s.enroll_course cc).name = s.name := by
  unfold Student.enroll_course; split <;> rfl

theorem enroll_course_age (s : Student) (cc : String) : (s.enroll_course cc).age = s.age := by
  unfold Student.enroll_course; split <;> rfl

theorem enroll_course_address (s : Student) (cc : String) :
    (s.enroll_course cc).address = s.address := by
  unfold Student.enroll_course; split <;> rfl

theorem enroll_course_student_id (s : Student) (cc : String) :
    (s.enroll_course cc).student_id = s.student_id := by
  unfold Student.enroll_course; split <;> rfl

theorem enroll_course_grades (s : Student) (cc : String) :
    (s.enroll_course cc).grades = s.grades := by
  unfold Student.enroll_course; split <;> rfl

theorem add_student_mem (c : Course) (sid : String) : sid ∈ (c.add_student sid).students := by
  unfold Course.add_student
  by_cases h : sid ∈ c.students <;> simp [h]

theorem mem_add_student_iff (c : Course) (sid x : String) :
    x ∈ (c.add_student sid).students ↔ x ∈ c.students ∨ x = sid := by
  unfold Course.add_student
  by_cases h : sid ∈ c.students
  · simp only [h, if_pos]
    constructor
    · exact Or.inl
    · rintro (hx | rfl)
      · exact hx
      · exact h
  · simp [h]

theorem add_student_idem (c : Course) (sid : String) :
    (c.add_student sid).add_student sid = c.add_student sid := by
  have h := add_student_mem c sid
  conv_lhs => rw [Course.add_student]
  rw [if_pos h]

theorem add_student_course_name (c : Course) (sid : String) :
    (c.add_student sid).course_name = c.course_name := by
  unfold Course.add_student; split <;> rfl

theorem add_student_course_code (c : Course) (sid : String) :
    (c.add_student sid).course_code = c.course_code := by
  unfold Course.add_student; split <;> rfl

theorem add_student_instructor (c : Course) (sid : String) :
    (c.add_student sid).instructor = c.instructor := by
  unfold Course.add_student; split <;> rfl

theorem add_grade_courses (s : Student) (cc g : String) :
    (s.add_grade cc g).courses = s.courses := rfl

theorem add_grade_student_id (s : Student) (cc g : String) :
    (s.add_grade cc g).student_id = s.student_id := rfl

theorem add_grade_grades (s : Student) (cc g : String) :
    (s.add_grade cc g).grades = dictUpsert s.grades cc g := rfl

/-!
Store invariants, established by induction over the public operations.
-/

/-- Every student is stored under its own `student_id`. -/
def KeysS (ds : DataStore) : Prop :=
  ∀ sid s, alookup ds.students sid = some s → s.student_id = sid

/-- Every course is stored under its own `course_code`. -/
def KeysC (ds : DataStore) : Prop :=
  ∀ cc c, alookup ds.courses cc = some c → c.course_code = cc

/-- Student ids referenced by a course's roster exist in the store. -/
def RefS (ds : DataStore) : Prop :=
  ∀ cc c, alookup ds.courses cc = some c →
    ∀ sid, sid ∈ c.students → (alookup ds.students sid).isSome

/-- Course codes referenced by a student's course list exist in the store. -/
def RefC (ds : DataStore) : Prop :=
  ∀ sid s, alookup ds.students sid = some s →
    ∀ cc, cc ∈ s.courses → (alookup ds.courses cc).isSome

/-- The enrollment relation is symmetric between the two back-references. -/
def EnrollSymm (ds : DataStore) : Prop :=
  ∀ sid s cc c, alookup ds.students sid = some s → alookup ds.courses cc = some c →
    (c.course_code ∈ s.courses ↔ s.student_id ∈ c.students)

/-- Every graded course code is an enrolled course code. -/
def GradesEnrolled (ds : DataStore) : Prop :=
  ∀ sid s, alookup ds.students sid = some s →
    ∀ cc, (alookup s.grades cc).isSome → cc ∈ s.courses

def WF (ds : DataStore) : Prop :=
  KeysS ds ∧ KeysC ds ∧ RefS ds ∧ RefC ds ∧ EnrollSymm ds ∧ GradesEnrolled ds

theorem WF_empty : WF DataStore.empty := by
  refine ⟨?_, ?_, ?_, ?_, ?_, ?_⟩
  · intro sid s h
    simp [DataStore.empty, alookup] at h
  · intro cc c h
    simp [DataStore.empty, alookup] at h
  · intro cc c h
    simp [DataStore.empty, alookup] at h
  · intro sid s h
    simp [DataStore.empty, alookup] at h
  · intro sid s cc c h1 h2
    simp [DataStore.empty, alookup] at h1
  · intro sid s h
    simp [DataStore.empty, alookup] at h

theorem WF_add_student (ds : DataStore) (st : Student)
    (hg : st.grades = []) (hc : st.courses = []) (h : WF ds) :
    WF (ds.add_student st).2 := by
  obtain ⟨hKS, hKC, hRS, hRC, hSym, hGr⟩ := h
  by_cases hdup : (alookup ds.students st.student_id).isSome
  · simpa [DataStore.add_student, hdup] using ⟨hKS, hKC, hRS, hRC, hSym, hGr⟩
  · have hnone : alookup ds.students st.student_id = none := by
      cases hl : alookup ds.students st.student_id with
      | none => rfl
      | some w => rw [hl] at hdup; simp at hdup
    simp only [DataStore.add_student, hdup, if_neg, Bool.false_eq_true, if_false]
    refine ⟨?_, ?_, ?_, ?_, ?_, ?_⟩
    · intro sid s hs
      rcases alookup_append_single_inv _ _ _ _ _ hs with hold | ⟨_, hkey, hval⟩
      · exact hKS sid s hold
      · rw [hval, hkey]
    · exact hKC
    · intro cc c hcs sid hmem
      have hsome := hRS cc c hcs sid hmem
      obtain ⟨w, hw⟩ := Option.isSome_iff_exists.mp hsome
      rw [alookup_append_some _ _ _ _ hw]
      rfl
    · intro sid s hs cc' hcc
      rcases alookup_append_single_inv _ _ _ _ _ hs with hold | ⟨_, _, hval⟩
      · exact hRC sid s hold cc' hcc
      · rw [hval, hc] at hcc
        simp at hcc
    · intro sid s cc' c hs hcs
      rcases alookup_append_single_inv _ _ _ _ _ hs with hold | ⟨hn, hkey, hval⟩
      · exact hSym sid s cc' c hold hcs
      · rw [hval]
        constructor
        · intro hmem
          rw [hc] at hmem
          simp at hmem
        · intro hmem
          exfalso
          have hsome := hRS cc' c hcs st.student_id hmem
          rw [hnone] at hsome
          simp at hsome
    · intro sid s hs cc' hcc
      rcases alookup_append_single_inv _ _ _ _ _ hs with hold | ⟨_, _, hval⟩
      · exact hGr sid s hold cc' hcc
      · rw [hval, hg] at hcc
        simp [alookup] at hcc

theorem WF_add_course (ds : DataStore) (co : Course)
    (hs0 : co.students = []) (h : WF ds) :
    WF (ds.add_course co).2 := by
  obtain ⟨hKS, hKC, hRS, hRC, hSym, hGr⟩ := h
  by_cases hdup : (alookup ds.courses co.course_code).isSome
  · simpa [DataStore.add_course, hdup] using ⟨hKS, hKC, hRS, hRC, hSym, hGr⟩
  · have hnone : alookup ds.courses co.course_code = none := by
      cases hl : alookup ds.courses co.course_code with
      | none => rfl
      | some w => rw [hl] at hdup; simp at hdup
    simp only [DataStore.add_course, hdup, if_neg, Bool.false_eq_true, if_false]
    refine ⟨hKS, ?_, ?_, ?_, ?_, hGr⟩
    · intro cc c hcs
      rcases alookup_append_single_inv _ _ _ _ _ hcs with hold | ⟨_, hkey, hval⟩
      · exact hKC cc c hold
      · rw [hval, hkey]
    · intro cc c hcs sid hmem
      rcases alookup_append_single_inv _ _ _ _ _ hcs with hold | ⟨_, _, hval⟩
      · exact hRS cc c hold sid hmem
      · rw [hval, hs0] at hmem
        simp at hmem
    · intro sid s hss cc' hcc
      have hsome := hRC sid s hss cc' hcc
      obtain ⟨w, hw⟩ := Option.isSome_iff_exists.mp hsome
      rw [alookup_append_some _ _ _ _ hw]
      rfl
    · intro sid s cc' c hss hcs
      rcases alookup_append_single_inv _ _ _ _ _ hcs with hold | ⟨hn, hkey, hval⟩
      · exact hSym sid s cc' c hss hold
      · rw [hval]
        constructor
        · intro hmem
          exfalso
          have hsome := hRC sid s hss co.course_code hmem
          rw [hnone] at hsome
          simp at hsome
        · intro hmem
          rw [hs0] at hmem
          simp at hmem

theorem WF_enroll (ds : DataStore) (sid cc : String) (h : WF ds) :
    WF (ds.enroll sid cc).2 := by
  obtain ⟨hKS, hKC, hRS, hRC, hSym, hGr⟩ := h
  cases hs : alookup ds.students sid with
  | none => simpa [DataStore.enroll, hs] using ⟨hKS, hKC, hRS, hRC, hSym, hGr⟩
  | some s =>
    cases hc : alookup ds.courses cc with
    | none => simpa [DataStore.enroll, hs, hc] using ⟨hKS, hKC, hRS, hRC, hSym, hGr⟩
    | some c =>
      have hsid : s.student_id = sid := hKS sid s hs
      have hccode : c.course_code = cc := hKC cc c hc
      simp only [DataStore.enroll, hs, hc]
      refine ⟨?_, ?_, ?_, ?_, ?_, ?_⟩
      · intro sid' s' hs'
        rcases alookup_aupdate_inv _ _ _ _ _ hs' with ⟨hkey, hval⟩ | ⟨hne, hold⟩
        · rw [hval, hkey, enroll_course_student_id, hsid]
        · exact hKS sid' s' hold
      · intro cc' c' hc'
        rcases alookup_aupdate_inv _ _ _ _ _ hc' with ⟨hkey, hval⟩ | ⟨hne, hold⟩
        · rw [hval, hkey, add_student_course_code, hccode]
        · exact hKC cc' c' hold
      · intro cc' c' hc' sid' hmem
        rw [alookup_aupdate_isSome]
        rcases alookup_aupdate_inv _ _ _ _ _ hc' with ⟨hkey, hval⟩ | ⟨hne, hold⟩
        · rw [hval] at hmem
          rcases (mem_add_student_iff c sid sid').mp hmem with hold2 | rfl
          · exact hRS cc c hc sid' hold2
          · simp [hs]
        · exact hRS cc' c' hold sid' hmem
      · intro sid' s' hs' cc'' hcc
        rw [alookup_aupdate_isSome]
        rcases alookup_aupdate_inv _ _ _ _ _ hs' with ⟨hkey, hval⟩ | ⟨hne, hold⟩
        · rw [hval] at hcc
          rcases (mem_enroll_course_iff s cc cc'').mp hcc with hold2 | rfl
          · exact hRC sid s hs cc'' hold2
          · simp [hc]
        · exact hRC sid' s' hold cc'' hcc
      · intro sid' s' cc' c' hs' hc'
        rcases alookup_aupdate_inv _ _ _ _ _ hs' with ⟨hkeys, hvals⟩ | ⟨hnes, holds⟩
        · rcases alookup_aupdate_inv _ _ _ _ _ hc' with ⟨hkeyc, hvalc⟩ | ⟨hnec, holdc⟩
          · rw [hvals, hvalc]
            apply iff_of_true
            · rw [add_student_course_code, hccode]
              exact enroll_course_mem s cc
            · rw [enroll_course_student_id, hsid]
              exact add_student_mem c sid
          · have hcode' : c'.course_code = cc' := hKC cc' c' holdc
            rw [hvals, enroll_course_student_id]
            constructor
            · intro hmem
              rcases (mem_enroll_course_iff s cc c'.course_code).mp hmem with hold2 | heq
              · exact (hSym sid s cc' c' hs holdc).mp hold2
              · exact absurd (hcode'.symm.trans heq) hnec
            · intro hmem
              apply (mem_enroll_course_iff s cc c'.course_code).mpr
              exact Or.inl ((hSym sid s cc' c' hs holdc).mpr hmem)
        · rcases alookup_aupdate_inv _ _ _ _ _ hc' with ⟨hkeyc, hvalc⟩ | ⟨hnec, holdc⟩
          · have hsid' : s'.student_id = sid' := hKS sid' s' holds
            rw [hvalc, add_student_course_code]
            constructor
            · intro hmem
              apply (mem_add_student_iff c sid s'.student_id).mpr
              exact Or.inl ((hSym sid' s' cc c holds hc).mp hmem)
            · intro hmem
              rcases (mem_add_student_iff c sid s'.student_id).mp hmem with hold2 | heq
              · exact (hSym sid' s' cc c holds hc).mpr hold2
              · exact absurd (hsid'.symm.trans heq) hnes
          · exact hSym sid' s' cc' c' holds holdc
      · intro sid' s' hs' cc'' hcc
        rcases alookup_aupdate_inv _ _ _ _ _ hs' with ⟨hkey, hval⟩ | ⟨hne, hold⟩
        · rw [hval] at hcc ⊢
          rw [enroll_course_grades] at hcc
          apply (mem_enroll_course_iff s cc cc'').mpr
          exact Or.inl (hGr sid s hs cc'' hcc)
        · exact hGr sid' s' hold cc'' hcc

theorem WF_add_grade (ds : DataStore) (sid cc g : String) (h : WF ds) :
    WF (ds.add_grade sid cc g).2 := by
  obtain ⟨hKS, hKC, hRS, hRC, hSym, hGr⟩ := h
  cases hs : alookup ds.students sid with
  | none => simpa [DataStore.add_grade, hs] using ⟨hKS, hKC, hRS, hRC, hSym, hGr⟩
  | some s =>
    cases hc : alookup ds.courses cc with
    | none => simpa [DataStore.add_grade, hs, hc] using ⟨hKS, hKC, hRS, hRC, hSym, hGr⟩
    | some c =>
      by_cases hmem : cc ∈ s.courses
      · have hsid : s.student_id = sid := hKS sid s hs
        simp only [DataStore.add_grade, hs, hc, hmem, not_true_eq_false, if_false]
        refine ⟨?_, hKC, ?_, ?_, ?_, ?_⟩
        · intro sid' s' hs'
          rcases alookup_aupdate_inv _ _ _ _ _ hs' with ⟨hkey, hval⟩ | ⟨hne, hold⟩
          · rw [hval, hkey, add_grade_student_id, hsid]
          · exact hKS sid' s' hold
        · intro cc' c' hc' sid' hmem'
          rw [alookup_aupdate_isSome]
          exact hRS cc' c' hc' sid' hmem'
        · intro sid' s' hs' cc'' hcc
          rcases alookup_aupdate_inv _ _ _ _ _ hs' with ⟨hkey, hval⟩ | ⟨hne, hold⟩
          · rw [hval, add_grade_courses] at hcc
            exact hRC sid s hs cc'' hcc
          · exact hRC sid' s' hold cc'' hcc
        · intro sid' s' cc' c' hs' hc'
          rcases alookup_aupdate_inv _ _ _ _ _ hs' with ⟨hkey, hval⟩ | ⟨hne, hold⟩
          · rw [hval, add_grade_student_id, add_grade_courses]
            exact hSym sid s cc' c' hs hc'
          · exact hSym sid' s' cc' c' hold hc'
        · intro sid' s' hs' cc'' hcc
          rcases alookup_aupdate_inv _ _ _ _ _ hs' with ⟨hkey, hval⟩ | ⟨hne, hold⟩
          · rw [hval, add_grade_grades] at hcc
            rw [hval, add_grade_courses]
            rcases alookup_dictUpsert_isSome _ _ _ _ hcc with hold2 | rfl
            · exact hGr sid s hs cc'' hold2
            · exact hmem
          · exact hGr sid' s' hold cc'' hcc
      · simpa [DataStore.add_grade, hs, hc, hmem] using ⟨hKS, hKC, hRS, hRC, hSym, hGr⟩

theorem WF_reachable {ds : DataStore} (h : Reachable ds) : WF ds := by
  induction h with
  | empty => exact WF_empty
  | step op hr ih =>
    cases op with
    | addStudent n a ad sid => exact WF_add_student _ _ rfl rfl ih
    | addCourse cn cc i => exact WF_add_course _ _ rfl ih
    | enroll sid cc => exact WF_enroll _ sid cc ih
    | addGrade sid cc g => exact WF_add_grade _ sid cc g ih

/-! Round-trip lemmas for the JSON codec. -/

theorem mapExcept_map_ok {α β γ : Type} (f : γ → Except PyErr β) (e : α → γ) (g : α → β)
    (hf : ∀ a, f (e a) = .ok (g a)) (l : List α) :
    mapExcept f (l.map e) = .ok (l.map g) := by
  induction l with
  | nil => rfl
  | cons a rest ih => simp [mapExcept, hf a, ih]

theorem decodeStrList_strs (l : List String) :
    decodeStrList (.arr (l.map JValue.str)) = .ok l := by
  have h := mapExcept_map_ok decodeStr JValue.str (fun a => a) (fun a => rfl) l
  simpa [decodeStrList] using h

theorem decodeStrMap_strs (l : List (String × String)) :
    decodeStrMap (.obj (l.map (fun p => (p.1, JValue.str p.2)))) = .ok l := by
  have h := mapExcept_map_ok (fun p => (decodeStr p.2).map (fun v => (p.1, v)))
    (fun p => (p.1, JValue.str p.2)) (fun p => p) (fun p => by simp [decodeStr, Except.map]) l
  simpa [decodeStrMap] using h

theorem studentFromObj_toObj (s : Student) : studentFromObj (studentToObj s) = .ok s := by
  simp [studentFromObj, studentToObj, alookup, decodeStrMap_strs, decodeStrList_strs]

theorem courseFromObj_toObj (c : Course) : courseFromObj (courseToObj c) = .ok c := by
  simp [courseFromObj, courseToObj, alookup, decodeStrList_strs]

theorem entriesFromObj_students (l : List (String × Student)) :
    entriesFromObj studentFromObj (l.map (fun p => (p.1, JValue.obj (studentToObj p.2)))) =
      .ok l := by
  have h := mapExcept_map_ok
    (fun p : String × JValue =>
      match p.2 with
      | .obj o => (studentFromObj o).map (fun b => (p.1, b))
      | _ => .error .typeError)
    (fun p : String × Student => (p.1, JValue.obj (studentToObj p.2)))
    (fun p => p) (fun p => by simp [studentFromObj_toObj, Except.map]) l
  simpa [entriesFromObj] using h

theorem entriesFromObj_courses (l : List (String × Course)) :
    entriesFromObj courseFromObj (l.map (fun p => (p.1, JValue.obj (courseToObj p.2)))) =
      .ok l := by
  have h := mapExcept_map_ok
    (fun p : String × JValue =>
      match p.2 with
      | .obj o => (courseFromObj o).map (fun b => (p.1, b))
      | _ => .error .typeError)
    (fun p : String × Course => (p.1, JValue.obj (courseToObj p.2)))
    (fun p => p) (fun p => by simp [courseFromObj_toObj, Except.map]) l
  simpa [entriesFromObj] using h

/-- Serialization round-trip: `from_json (to_json ds)` rebuilds `ds` exactly. -/
theorem fromJson_toJson (ds : DataStore) : fromJson (toJson ds) = .ok ds := by
  have hs := entriesFromObj_students ds.students
  have hc := entriesFromObj_courses ds.courses
  simp [fromJson, toJson, alookup, hs, hc]

/-! Equation lemmas for the `DataStore` operations, one per control-flow branch. -/

theorem aupdate_aupdate {α : Type} (l : List (String × α)) (k : String) (v w : α) :
    aupdate (aupdate l k v) k w = aupdate l k w := by
  induction l with
  | nil => rfl
  | cons p rest ih =>
    by_cases hp : p.1 = k
    · simp [aupdate, hp, ih]
    · simp [aupdate, hp, ih]

theorem enroll_eq_no_student (ds : DataStore) (sid cc : String)
    (h : alookup ds.students sid = none) :
    ds.enroll sid cc = (studentNotFoundMsg, ds) := by
  simp [DataStore.enroll, h]

theorem enroll_eq_no_course (ds : DataStore) (sid cc : String) (s : Student)
    (hs : alookup ds.students sid = some s) (hc : alookup ds.courses cc = none) :
    ds.enroll sid cc = (courseNotFoundMsg, ds) := by
  simp [DataStore.enroll, hs, hc]

theorem enroll_eq_found (ds : DataStore) (sid cc : String) (s : Student) (c : Course)
    (hs : alookup ds.students sid = some s) (hc : alookup ds.courses cc = some c) :
    ds.enroll sid cc =
      (enrollSuccessMsg (s.enroll_course cc) (c.add_student sid),
       { students := aupdate ds.students sid (s.enroll_course cc),
         courses := aupdate ds.courses cc (c.add_student sid) }) := by
  simp [DataStore.enroll, hs, hc]

theorem add_grade_eq_no_student (ds : DataStore) (sid cc g : String)
    (h : alookup ds.students sid = none) :
    ds.add_grade sid cc g = (studentNotFoundMsg, ds) := by
  simp [DataStore.add_grade, h]

theorem add_grade_eq_no_course (ds : DataStore) (sid cc g : String) (s : Student)
    (hs : alookup ds.students sid = some s) (hc : alookup ds.courses cc = none) :
    ds.add_grade sid cc g = (courseNotFoundMsg, ds) := by
  simp [DataStore.add_grade, hs, hc]

theorem add_grade_eq_not_enrolled (ds : DataStore) (sid cc g : String) (s : Student)
    (c : Course) (hs : alookup ds.students sid = some s)
    (hc : alookup ds.courses cc = some c) (hm : cc ∉ s.courses) :
    ds.add_grade sid cc g = (notEnrolledMsg, ds) := by
  simp [DataStore.add_grade, hs, hc, hm]

theorem add_grade_eq_found (ds : DataStore) (sid cc g : String) (s : Student) (c : Course)
    (hs : alookup ds.students sid = some s) (hc : alookup ds.courses cc = some c)
    (hm : cc ∈ s.courses) :
    ds.add_grade sid cc g =
      (gradeSuccessMsg g (s.add_grade cc g) c,
       { ds with students := aupdate ds.students sid (s.add_grade cc g) }) := by
  simp [DataStore.add_grade, hs, hc, hm]

/-! The success messages never coincide with the error messages (their first
characters differ), which makes the "returns error exactly when" statements exact. -/

theorem head_append (a b : String) (ch : Char) (h : a.data.head? = some ch) :
    (a ++ b).data.head? = some ch := by
  cases a with
  | mk d1 =>
    cases b with
    | mk d2 =>
      show (d1 ++ d2).head? = some ch
      cases d1 with
      | nil => simp at h
      | cons x xs => simpa using h

theorem ne_of_head_ne (a b : String) (c1 c2 : Char) (h1 : a.data.head? = some c1)
    (h2 : b.data.head? = some c2) (hne : c1 ≠ c2) : a ≠ b := by
  intro h
  rw [h, h2] at h1
  exact hne (Option.some.inj h1).symm

theorem gradeSuccess_head (g : String) (s : Student) (c : Course) :
    (gradeSuccessMsg g s c).data.head? = some 'G' := by
  unfold gradeSuccessMsg
  apply head_append
  apply head_append
  apply head_append
  apply head_append
  apply head_append
  rfl

theorem enrollSuccess_head (s : Student) (c : Course) :
    (enrollSuccessMsg s c).data.head? = some 'S' := by
  unfold enrollSuccessMsg
  apply head_append
  apply head_append
  apply head_append
  apply head_append
  apply head_append
  apply head_append
  apply head_append
  rfl

theorem gradeSuccess_ne_notEnrolled (g : String) (s : Student) (c : Course) :
    gradeSuccessMsg g s c ≠ notEnrolledMsg :=
  ne_of_head_ne _ _ 'G' 'E' (gradeSuccess_head g s c) rfl (by decide)

theorem gradeSuccess_ne_studentNotFound (g : String) (s : Student) (c : Course) :
    gradeSuccessMsg g s c ≠ studentNotFoundMsg :=
  ne_of_head_ne _ _ 'G' 'E' (gradeSuccess_head g s c) rfl (by decide)

theorem gradeSuccess_ne_courseNotFound (g : String) (s : Student) (c : Course) :
    gradeSuccessMsg g s c ≠ courseNotFoundMsg :=
  ne_of_head_ne _ _ 'G' 'E' (gradeSuccess_head g s c) rfl (by decide)

/-! Concrete sample stores used to instantiate the theorems. -/

def demoStore0 : DataStore :=
  applyOp (applyOp DataStore.empty (Op.addStudent "Alia" 20 "Dhaka" "S1"))
    (Op.addCourse "Algorithms" "C1" "Dr. X")

def demoStore : DataStore := applyOp demoStore0 (Op.enroll "S1" "C1")

def demoStore3 : DataStore := applyOp demoStore (Op.addGrade "S1" "C1" "A")

theorem demoStore0_reachable : Reachable demoStore0 :=
  Reachable.step (Op.addCourse "Algorithms" "C1" "Dr. X")
    (Reachable.step (Op.addStudent "Alia" 20 "Dhaka" "S1") Reachable.empty)

theorem demoStore_reachable : Reachable demoStore :=
  Reachable.step (Op.enroll "S1" "C1") demoStore0_reachable

theorem demoStore3_reachable : Reachable demoStore3 :=
  Reachable.step (Op.addGrade "S1" "C1" "A") demoStore_reachable

def demoStudent : Student :=
  { name := "Alia", age := 20, address := "Dhaka", student_id := "S1",
    grades := [], courses := ["C1"] }

def demoCourse : Course :=
  { course_name := "Algorithms", course_code := "C1", instructor := "Dr. X",
    students := ["S1"] }

def demoStudent3 : Student := { demoStudent with grades := [("C1", "A")] }

def demoFreshStudent : Student := Student.new "Alia" 20 "Dhaka" "S1"

def demoStore1 : DataStore := (DataStore.empty.add_student demoFreshStudent).2

/-! The claims. -/

/-- C1: for every DataStore reachable from the empty store through the public
operations, deserializing the result of serializing it (`from_json` of `to_json`)
yields a store whose students and courses collections are attribute-for-attribute
equal to the original (the model even preserves ordering, so plain equality holds). -/
theorem C1_serialization_roundtrip (ds : DataStore) (_h : Reachable ds) :
    fromJson (toJson ds) = Except.ok ds :=
  fromJson_toJson ds

theorem C1_witness : fromJson (toJson demoStore) = Except.ok demoStore :=
  C1_serialization_roundtrip demoStore demoStore_reachable

/-- C2: in every reachable DataStore the enrollment relation is symmetric: for every
student and course in the store, the course's code is in the student's course list
iff the student's id is in the course's roster. -/
theorem C2_enrollment_symmetric (ds : DataStore) (h : Reachable ds) (sid : String)
    (s : Student) (cc : String) (c : Course) (hs : alookup ds.students sid = some s)
    (hc : alookup ds.courses cc = some c) :
    c.course_code ∈ s.courses ↔ s.student_id ∈ c.students :=
  (WF_reachable h).2.2.2.2.1 sid s cc c hs hc

theorem C2_witness :
    demoCourse.course_code ∈ demoStudent.courses
      ↔ demoStudent.student_id ∈ demoCourse.students :=
  C2_enrollment_symmetric demoStore demoStore_reachable "S1" demoStudent "C1" demoCourse
    (by decide) (by decide)

/-- C3: with both entities present, `add_grade` returns the NotEnrolled error exactly
when the course code is not in the student's course list; when it is in the list the
grade is upserted (overwriting any previous one), retrievable on the stored student
record, and a success message is returned; and after `enroll` for the pair, the same
call succeeds with the grade retrievable. -/
theorem C3_add_grade_enrollment_guard (ds : DataStore) (sid cc g : String) (s : Student)
    (c : Course) (hs : alookup ds.students sid = some s)
    (hc : alookup ds.courses cc = some c) :
    ((ds.add_grade sid cc g).1 = notEnrolledMsg ↔ cc ∉ s.courses)
    ∧ (cc ∈ s.courses →
        (ds.add_grade sid cc g).1 = gradeSuccessMsg g (s.add_grade cc g) c
        ∧ alookup (ds.add_grade sid cc g).2.students sid = some (s.add_grade cc g)
        ∧ alookup (s.add_grade cc g).grades cc = some g)
    ∧ (((ds.enroll sid cc).2.add_grade sid cc g).1
        = gradeSuccessMsg g ((s.enroll_course cc).add_grade cc g) (c.add_student sid)
        ∧ alookup ((ds.enroll sid cc).2.add_grade sid cc g).2.students sid
          = some ((s.enroll_course cc).add_grade cc g)
        ∧ alookup ((s.enroll_course cc).add_grade cc g).grades cc = some g) := by
  have hpost : ∀ t : Student, alookup (t.add_grade cc g).grades cc = some g := fun t =>
    alookup_dictUpsert_self t.grades cc g
  refine ⟨?_, ?_, ?_⟩
  · by_cases hm : cc ∈ s.courses
    · rw [add_grade_eq_found ds sid cc g s c hs hc hm]
      exact iff_of_false (gradeSuccess_ne_notEnrolled g (s.add_grade cc g) c)
        (not_not_intro hm)
    · rw [add_grade_eq_not_enrolled ds sid cc g s c hs hc hm]
      exact iff_of_true rfl hm
  · intro hm
    rw [add_grade_eq_found ds sid cc g s c hs hc hm]
    exact ⟨rfl, alookup_aupdate_self ds.students sid (s.add_grade cc g) s hs, hpost s⟩
  · have hs2 : alookup (ds.enroll sid cc).2.students sid = some (s.enroll_course cc) := by
      rw [enroll_eq_found ds sid cc s c hs hc]
      exact alookup_aupdate_self ds.students sid _ s hs
    have hc2 : alookup (ds.enroll sid cc).2.courses cc = some (c.add_student sid) := by
      rw [enroll_eq_found ds sid cc s c hs hc]
      exact alookup_aupdate_self ds.courses cc _ c hc
    have hm2 : cc ∈ (s.enroll_course cc).courses := enroll_course_mem s cc
    rw [add_grade_eq_found (ds.enroll sid cc).2 sid cc g (s.enroll_course cc)
      (c.add_student sid) hs2 hc2 hm2]
    exact ⟨rfl, alookup_aupdate_self (ds.enroll sid cc).2.students sid
      ((s.enroll_course cc).add_grade cc g) (s.enroll_course cc) hs2,
      hpost (s.enroll_course cc)⟩

theorem C3_witness :
    (demoStore0.add_grade "S1" "C1" "A").1 = notEnrolledMsg
      ↔ "C1" ∉ (Student.new "Alia" 20 "Dhaka" "S1").courses :=
  (C3_add_grade_enrollment_guard demoStore0 "S1" "C1" "A"
    (Student.new "Alia" 20 "Dhaka" "S1") (Course.new "Algorithms" "C1" "Dr. X")
    (by decide) (by decide)).1

/-- C4: in both `enroll` and `add_grade`, student existence is checked strictly
before course existence: whenever the student id is absent the result is the
student-not-found error and the store is unchanged, regardless of the course. -/
theorem C4_student_checked_first (ds : DataStore) (sid cc g : String)
    (h : alookup ds.students sid = none) :
    ds.enroll sid cc = (studentNotFoundMsg, ds)
    ∧ ds.add_grade sid cc g = (studentNotFoundMsg, ds) :=
  ⟨enroll_eq_no_student ds sid cc h, add_grade_eq_no_student ds sid cc g h⟩

theorem C4_witness :
    demoStore0.enroll "S9" "C1" = (studentNotFoundMsg, demoStore0)
    ∧ demoStore0.add_grade "S9" "C1" "A" = (studentNotFoundMsg, demoStore0) :=
  C4_student_checked_first demoStore0 "S9" "C1" "A" (by decide)

/-- C5: `add_student` returns false and leaves the store unchanged (the stored
record still retrievable unchanged) when the id is already present, and otherwise
inserts the record, returns true, and `get_student` retrieves an equal record. -/
theorem C5_add_student_spec (ds : DataStore) (s : Student) :
    (∀ s0, alookup ds.students s.student_id = some s0 →
      ds.add_student s = (false, ds)
      ∧ (ds.add_student s).2.get_student s.student_id = some s0)
    ∧ (alookup ds.students s.student_id = none →
      (ds.add_student s).1 = true
      ∧ (ds.add_student s).2.get_student s.student_id = some s) := by
  constructor
  · intro s0 h0
    have heq : ds.add_student s = (false, ds) := by
      simp [DataStore.add_student, h0]
    refine ⟨heq, ?_⟩
    rw [heq]
    show alookup ds.students s.student_id = some s0
    exact h0
  · intro h0
    have heq : ds.add_student s =
        (true, { ds with students := ds.students ++ [(s.student_id, s)] }) := by
      simp [DataStore.add_student, h0]
    rw [heq]
    refine ⟨rfl, ?_⟩
    show alookup (ds.students ++ [(s.student_id, s)]) s.student_id = some s
    rw [alookup_append_none _ _ _ h0, alookup_single, if_pos rfl]

theorem C5_witness :
    demoStore1.add_student demoFreshStudent = (false, demoStore1)
    ∧ (demoStore1.add_student demoFreshStudent).2.get_student demoFreshStudent.student_id
      = some demoFreshStudent :=
  (C5_add_student_spec demoStore1 demoFreshStudent).1 demoFreshStudent (by decide)

/-- C6: `enroll` is idempotent when both entities exist: enrolling twice yields the
same final store as enrolling once, and both calls return the success message. -/
theorem C6_enroll_idempotent (ds : DataStore) (sid cc : String) (s : Student) (c : Course)
    (hs : alookup ds.students sid = some s) (hc : alookup ds.courses cc = some c) :
    ((ds.enroll sid cc).2.enroll sid cc).2 = (ds.enroll sid cc).2
    ∧ (ds.enroll sid cc).1 = enrollSuccessMsg (s.enroll_course cc) (c.add_student sid)
    ∧ ((ds.enroll sid cc).2.enroll sid cc).1
        = enrollSuccessMsg (s.enroll_course cc) (c.add_student sid) := by
  have h1 : alookup (ds.enroll sid cc).2.students sid = some (s.enroll_course cc) := by
    rw [enroll_eq_found ds sid cc s c hs hc]
    exact alookup_aupdate_self ds.students sid _ s hs
  have h2 : alookup (ds.enroll sid cc).2.courses cc = some (c.add_student sid) := by
    rw [enroll_eq_found ds sid cc s c hs hc]
    exact alookup_aupdate_self ds.courses cc _ c hc
  have h3 := enroll_eq_found (ds.enroll sid cc).2 sid cc (s.enroll_course cc)
    (c.add_student sid) h1 h2
  rw [enroll_course_idem, add_student_idem] at h3
  refine ⟨?_, ?_, ?_⟩
  · rw [h3, enroll_eq_found ds sid cc s c hs hc]
    show ({ students := aupdate (aupdate ds.students sid (s.enroll_course cc)) sid
              (s.enroll_course cc),
            courses := aupdate (aupdate ds.courses cc (c.add_student sid)) cc
              (c.add_student sid) } : DataStore) = _
    rw [aupdate_aupdate, aupdate_aupdate]
  · rw [enroll_eq_found ds sid cc s c hs hc]
  · rw [h3]

theorem C6_witness :
    ((demoStore0.enroll "S1" "C1").2.enroll "S1" "C1").2 = (demoStore0.enroll "S1" "C1").2
    ∧ (demoStore0.enroll "S1" "C1").1
        = enrollSuccessMsg ((Student.new "Alia" 20 "Dhaka" "S1").enroll_course "C1")
            ((Course.new "Algorithms" "C1" "Dr. X").add_student "S1")
    ∧ ((demoStore0.enroll "S1" "C1").2.enroll "S1" "C1").1
        = enrollSuccessMsg ((Student.new "Alia" 20 "Dhaka" "S1").enroll_course "C1")
            ((Course.new "Algorithms" "C1" "Dr. X").add_student "S1") :=
  C6_enroll_idempotent demoStore0 "S1" "C1" (Student.new "Alia" 20 "Dhaka" "S1")
    (Course.new "Algorithms" "C1" "Dr. X") (by decide) (by decide)

/-- Document whose student entry "S1" is missing the required "name" field. -/
def badDoc : JObj :=
  [("students", .obj [("S1", .obj
      [("age", .num 20), ("address", .str "Dhaka"), ("student_id", .str "S1")])]),
   ("courses", .obj [])]

/-- C7 counterexample: on a document whose student entry "S1" lacks the required
field "name", `from_json` fails with the bare `KeyError "name"`: the error names
only the missing field, and the entity key "S1" appears nowhere in it (splitting
the error payload on "S1" leaves it in one piece), contradicting the claim that
the error names both the missing field and the entity key. -/
theorem C7_counterexample :
    fromJson badDoc = Except.error (PyErr.keyError "name")
    ∧ ¬ List.IsInfix ("S1" : String).data ("name" : String).data :=
  ⟨rfl, by decide⟩

/-- C7 (amended): reconstructing a student or course entry whose object is missing
a required identity or scalar field fails, but with a `KeyError` naming only the
first missing field in source order (name, age, address, student_id for students;
course_name, course_code, instructor for courses), never a richer error carrying
the entity key. -/
theorem C7_missing_field_keyError :
    (∀ o : JObj,
      ((alookup o "name").isNone ∨ (alookup o "age").isNone
        ∨ (alookup o "address").isNone ∨ (alookup o "student_id").isNone) →
      ∃ f, (f = "name" ∨ f = "age" ∨ f = "address" ∨ f = "student_id")
        ∧ studentFromObj o = Except.error (PyErr.keyError f))
    ∧ (∀ o : JObj,
      ((alookup o "course_name").isNone ∨ (alookup o "course_code").isNone
        ∨ (alookup o "instructor").isNone) →
      ∃ f, (f = "course_name" ∨ f = "course_code" ∨ f = "instructor")
        ∧ courseFromObj o = Except.error (PyErr.keyError f)) := by
  constructor
  · intro o h
    cases hn : alookup o "name" with
    | none => exact ⟨"name", Or.inl rfl, by simp [studentFromObj, hn]⟩
    | some vn =>
      cases ha : alookup o "age" with
      | none => exact ⟨"age", Or.inr (Or.inl rfl), by simp [studentFromObj, hn, ha]⟩
      | some va =>
        cases had : alookup o "address" with
        | none =>
          exact ⟨"address", Or.inr (Or.inr (Or.inl rfl)),
            by simp [studentFromObj, hn, ha, had]⟩
        | some vad =>
          cases hsi : alookup o "student_id" with
          | none =>
            exact ⟨"student_id", Or.inr (Or.inr (Or.inr rfl)),
              by simp [studentFromObj, hn, ha, had, hsi]⟩
          | some vsi =>
            exfalso
            rcases h with h | h | h | h <;> simp [hn, ha, had, hsi] at h
  · intro o h
    cases hn : alookup o "course_name" with
    | none => exact ⟨"course_name", Or.inl rfl, by simp [courseFromObj, hn]⟩
    | some vn =>
      cases hc : alookup o "course_code" with
      | none => exact ⟨"course_code", Or.inr (Or.inl rfl), by simp [courseFromObj, hn, hc]⟩
      | some vc =>
        cases hi : alookup o "instructor" with
        | none =>
          exact ⟨"instructor", Or.inr (Or.inr rfl), by simp [courseFromObj, hn, hc, hi]⟩
        | some vi =>
          exfalso
          rcases h with h | h | h <;> simp [hn, hc, hi] at h

theorem C7_witness :
    ∃ f, (f = "name" ∨ f = "age" ∨ f = "address" ∨ f = "student_id")
      ∧ studentFromObj [] = Except.error (PyErr.keyError f) :=
  C7_missing_field_keyError.1 [] (Or.inl rfl)

/-- C8: in every reachable DataStore, every course code keyed in a student's grades
mapping also appears in that student's enrolled course list. -/
theorem C8_grades_require_enrollment (ds : DataStore) (h : Reachable ds) (sid : String)
    (s : Student) (hs : alookup ds.students sid = some s) (cc : String)
    (hg : (alookup s.grades cc).isSome) : cc ∈ s.courses :=
  (WF_reachable h).2.2.2.2.2 sid s hs cc hg

theorem C8_witness : "C1" ∈ demoStudent3.courses :=
  C8_grades_require_enrollment demoStore3 demoStore3_reachable "S1" demoStudent3
    (by decide) "C1" (by decide)

/-- C9: a successful `enroll` changes at most the enrolled-courses list of the named
student and the roster of the named course: every other student and course record is
untouched, and every other field of the two affected records keeps its value. -/
theorem C9_enroll_frame (ds : DataStore) (sid cc : String) (s : Student) (c : Course)
    (hs : alookup ds.students sid = some s) (hc : alookup ds.courses cc = some c) :
    (∀ sid', sid' ≠ sid →
      alookup (ds.enroll sid cc).2.students sid' = alookup ds.students sid')
    ∧ (∀ cc', cc' ≠ cc →
      alookup (ds.enroll sid cc).2.courses cc' = alookup ds.courses cc')
    ∧ (∃ s2, alookup (ds.enroll sid cc).2.students sid = some s2
        ∧ s2.name = s.name ∧ s2.age = s.age ∧ s2.address = s.address
        ∧ s2.student_id = s.student_id ∧ s2.grades = s.grades)
    ∧ (∃ c2, alookup (ds.enroll sid cc).2.courses cc = some c2
        ∧ c2.course_name = c.course_name ∧ c2.course_code = c.course_code
        ∧ c2.instructor = c.instructor) := by
  rw [enroll_eq_found ds sid cc s c hs hc]
  refine ⟨?_, ?_, ?_, ?_⟩
  · intro sid' hne
    exact alookup_aupdate_ne ds.students sid sid' _ hne
  · intro cc' hne
    exact alookup_aupdate_ne ds.courses cc cc' _ hne
  · exact ⟨s.enroll_course cc, alookup_aupdate_self ds.students sid _ s hs,
      enroll_course_name s cc, enroll_course_age s cc, enroll_course_address s cc,
      enroll_course_student_id s cc, enroll_course_grades s cc⟩
  · exact ⟨c.add_student sid, alookup_aupdate_self ds.courses cc _ c hc,
      add_student_course_name c sid, add_student_course_code c sid,
      add_student_instructor c sid⟩

theorem C9_witness :
    (∀ sid', sid' ≠ "S1" →
      alookup (demoStore0.enroll "S1" "C1").2.students sid' = alookup demoStore0.students sid')
    ∧ (∀ cc', cc' ≠ "C1" →
      alookup (demoStore0.enroll "S1" "C1").2.courses cc' = alookup demoStore0.courses cc')
    ∧ (∃ s2, alookup (demoStore0.enroll "S1" "C1").2.students "S1" = some s2
        ∧ s2.name = (Student.new "Alia" 20 "Dhaka" "S1").name
        ∧ s2.age = (Student.new "Alia" 20 "Dhaka" "S1").age
        ∧ s2.address = (Student.new "Alia" 20 "Dhaka" "S1").address
        ∧ s2.student_id = (Student.new "Alia" 20 "Dhaka" "S1").student_id
        ∧ s2.grades = (Student.new "Alia" 20 "Dhaka" "S1").grades)
    ∧ (∃ c2, alookup (demoStore0.enroll "S1" "C1").2.courses "C1" = some c2
        ∧ c2.course_name = (Course.new "Algorithms" "C1" "Dr. X").course_name
        ∧ c2.course_code = (Course.new "Algorithms" "C1" "Dr. X").course_code
        ∧ c2.instructor = (Course.new "Algorithms" "C1" "Dr. X").instructor) :=
  C9_enroll_frame demoStore0 "S1" "C1" (Student.new "Alia" 20 "Dhaka" "S1")
    (Course.new "Algorithms" "C1" "Dr. X") (by decide) (by decide)

/-- C10: `add_grade` is atomic on failure: whenever it returns one of the three
error messages, the store (both collections, the grades mapping included) is
exactly the store before the call. -/
theorem C10_add_grade_atomic_on_failure (ds : DataStore) (sid cc g : String)
    (h : (ds.add_grade sid cc g).1 = studentNotFoundMsg
      ∨ (ds.add_grade sid cc g).1 = courseNotFoundMsg
      ∨ (ds.add_grade sid cc g).1 = notEnrolledMsg) :
    (ds.add_grade sid cc g).2 = ds := by
  cases hs : alookup ds.students sid with
  | none => rw [add_grade_eq_no_student ds sid cc g hs]
  | some s =>
    cases hc : alookup ds.courses cc with
    | none => rw [add_grade_eq_no_course ds sid cc g s hs hc]
    | some c =>
      by_cases hm : cc ∈ s.courses
      · exfalso
        rw [add_grade_eq_found ds sid cc g s c hs hc hm] at h
        rcases h with h | h | h
        · exact gradeSuccess_ne_studentNotFound g (s.add_grade cc g) c h
        · exact gradeSuccess_ne_courseNotFound g (s.add_grade cc g) c h
        · exact gradeSuccess_ne_notEnrolled g (s.add_grade cc g) c h
      · rw [add_grade_eq_not_enrolled ds sid cc g s c hs hc hm]

theorem C10_witness : (DataStore.empty.add_grade "S1" "C1" "A").2 = DataStore.empty :=
  C10_add_grade_atomic_on_failure DataStore.empty "S1" "C1" "A" (Or.inl (by decide))
